import Mathlib

/-!
Shallow embedding of the data-processing core of `dashboard.py`: the
loader/cleaner `load_and_clean_data`, the aggregators `calculate_kpis`,
`get_area_analysis`, `get_status_distribution` and
`prepare_cost_comparison_data`, and the display formatters
`format_currency` and `format_percentage`.

Modelling conventions:
* Python floats are modelled by exact rationals (`ℚ`); the special values
  produced by dividing a nonzero float by zero are modelled by `PFloat`.
* A missing cell (NaN) is modelled by `Option` (`none` = missing).
* A raw cell that may hold a string, a number or a missing value is
  modelled by `RawVal`.
* The date columns (`inicio`, `prazo`) are parsed by the source but never
  consumed by any aggregation or formatter, so they are not modelled.
* The string-to-float parser models the accepted grammar of `float(...)` /
  `pd.to_numeric(...)`: optional surrounding spaces, optional sign, digits
  with an optional decimal point, optional exponent part.  The literals
  `inf`/`nan` and digit underscores are outside the modelled grammar.
-/

set_option allowUnsafeReducibility true

attribute [local semireducible] Rat.mul Rat.add Rat.sub Rat.div Rat.inv

/-- A raw table cell: a string, a (finite) number, or a missing value. -/
inductive RawVal where
  | str (s : String)
  | num (q : ℚ)
  | missing
  deriving DecidableEq

/-- One row of the raw table, with the columns the pipeline consumes. -/
structure RawRow where
  project_id : Option String
  area : String
  status : String
  conclusao : RawVal
  valor : RawVal
  custo_previsto : RawVal
  deriving DecidableEq

/-- One row of the cleaned table produced by `load_and_clean_data`. -/
structure Row where
  project_id : String
  area : String
  status : String
  conclusao_clean : Option ℚ
  valor_clean : ℚ
  custo_previsto_clean : ℚ
  deriving DecidableEq

/-- Longest digit run at the head of the character list, and the rest. -/
def takeDigits : List Char → List Char × List Char
  | [] => ([], [])
  | c :: cs =>
    if c.isDigit then
      let p := takeDigits cs
      (c :: p.1, p.2)
    else ([], c :: cs)

/-- Value of a digit string (most significant digit first). -/
def digitsToNat (l : List Char) : ℕ :=
  l.foldl (fun n c => 10 * n + (c.toNat - 48)) 0

/-- Remove leading and trailing spaces. -/
def stripSpaces (l : List Char) : List Char :=
  ((l.dropWhile (· == ' ')).reverse.dropWhile (· == ' ')).reverse

/-- Model of Python `float(s)` / `pd.to_numeric(s)` on a string: optional
surrounding spaces, optional sign, digits with an optional decimal point,
optional exponent; `none` when the string is not a float literal. -/
def pyParseFloat (s : String) : Option ℚ :=
  let cs := stripSpaces s.data
  let sgn : ℚ := match cs with | '-' :: _ => -1 | _ => 1
  let cs1 := match cs with | '+' :: t => t | '-' :: t => t | t => t
  let ip := takeDigits cs1
  let fp := match ip.2 with | '.' :: t => takeDigits t | _ => (([] : List Char), ip.2)
  if ip.1.isEmpty && fp.1.isEmpty then none
  else
    let mant : ℚ := (digitsToNat ip.1 : ℚ) + (digitsToNat fp.1 : ℚ) / ((10 ^ fp.1.length : ℕ) : ℚ)
    match fp.2 with
    | [] => some (sgn * mant)
    | e :: t =>
      if e == 'e' || e == 'E' then
        let eneg : Bool := match t with | '-' :: _ => true | _ => false
        let t2 := match t with | '+' :: t2 => t2 | '-' :: t2 => t2 | t2 => t2
        let ed := takeDigits t2
        if ed.1.isEmpty || !ed.2.isEmpty then none
        else
          let scale : ℚ := ((10 ^ digitsToNat ed.1 : ℕ) : ℚ)
          some (if eneg then sgn * mant / scale else sgn * mant * scale)
      else none

/-- Model of `pd.to_numeric(x, errors='coerce')` on one cell. -/
def toNumericCoerce : RawVal → Option ℚ
  | .str s => pyParseFloat s
  | .num q => some q
  | .missing => none

/-- Model of Python `str.replace(c, '')` for a single character. -/
def removeChar (s : String) (c : Char) : String :=
  ⟨s.data.filter (· != c)⟩

/-- Model of Python `str.replace(c, d)` for single characters. -/
def replaceChar (s : String) (c d : Char) : String :=
  ⟨s.data.map (fun x => if x == c then d else x)⟩

/-- Per-cell effect of the completion cleaning in `load_and_clean_data`
(lines 42-55): a cell whose string form contains a percent sign goes
through `replace('%','')`, `replace(',','.')` and `astype(float)` (which
raises on a parse failure) and is divided by 100; every other cell goes
through `pd.to_numeric(..., errors='coerce')`, which turns a parse
failure into a missing value.  The string form of a numeric or missing
cell never contains a percent sign. -/
def cleanConclusao : RawVal → Except String (Option ℚ)
  | .str s =>
    if s.data.contains '%' then
      match pyParseFloat (replaceChar (removeChar s '%') ',' '.') with
      | some q => .ok (some (q / 100))
      | none => .error ("could not convert string to float: " ++ s)
    else .ok (pyParseFloat s)
  | .num q => .ok (some q)
  | .missing => .ok none

/-- Row filter of line 39: `df['project_id'].notna() & (df['project_id'] != '')`. -/
def keepRow (r : RawRow) : Bool :=
  decide (r.project_id ≠ none ∧ r.project_id ≠ some "")

/-- Cleaning of the remaining columns of one surviving row. -/
def cleanRow (r : RawRow) : Except String Row :=
  match cleanConclusao r.conclusao with
  | .error e => .error e
  | .ok c =>
    .ok { project_id := r.project_id.getD "", area := r.area, status := r.status,
          conclusao_clean := c,
          valor_clean := (toNumericCoerce r.valor).getD 0,
          custo_previsto_clean := (toNumericCoerce r.custo_previsto).getD 0 }

/-- Clean every row, propagating the error a percent-cell parse failure raises. -/
def cleanRows : List RawRow → Except String (List Row)
  | [] => .ok []
  | r :: rs =>
    match cleanRow r with
    | .error e => .error e
    | .ok c =>
      match cleanRows rs with
      | .error e => .error e
      | .ok cs => .ok (c :: cs)

/-- `load_and_clean_data` without the file read: drop rows with a missing or
empty `project_id`, then clean the remaining rows. -/
def load_and_clean_data (rows : List RawRow) : Except String (List Row) :=
  cleanRows (rows.filter keepRow)

/-- Model of `pandas.Series.mean`: missing entries are skipped; the mean of
zero non-missing entries is NaN (`none`). -/
def seriesMean (xs : List (Option ℚ)) : Option ℚ :=
  let vs := xs.filterMap id
  if vs.isEmpty then none else some (vs.sum / (vs.length : ℚ))

/-- Worker for `drop_duplicates(subset=['project_id'])` (keep='first'). -/
def dropDupAux : List Row → List String → List Row
  | [], _ => []
  | r :: rs, seen =>
    if r.project_id ∈ seen then dropDupAux rs seen
    else r :: dropDupAux rs (r.project_id :: seen)

/-- Model of `df.drop_duplicates(subset=['project_id'])`: keep the first
row of each distinct project identifier. -/
def drop_duplicates_by_id (df : List Row) : List Row :=
  dropDupAux df []

/-- The KPI record returned by `calculate_kpis`; `status_counts` models the
dict produced by `groupby('status')['project_id'].nunique().to_dict()` as an
association list from status to count. -/
structure KPIs where
  total_projects : ℕ
  status_counts : List (String × ℕ)
  avg_completion : ℚ
  planned_costs : ℚ
  actual_costs : ℚ
  cost_variance : ℚ
  deriving DecidableEq

/-- Embedding of `calculate_kpis` (lines 68-99). -/
def calculate_kpis (df : List Row) : KPIs :=
  let planned_costs := ((drop_duplicates_by_id df).map (·.custo_previsto_clean)).sum
  let actual_costs := (df.map (·.valor_clean)).sum
  { total_projects := (df.map (·.project_id)).dedup.length,
    status_counts := ((df.map (·.status)).dedup).map (fun st =>
      (st, ((df.filter (fun r => r.status = st)).map (·.project_id)).dedup.length)),
    avg_completion := (seriesMean (df.map (·.conclusao_clean))).getD 0,
    planned_costs := planned_costs,
    actual_costs := actual_costs,
    cost_variance :=
      if planned_costs > 0 then (actual_costs - planned_costs) / planned_costs * 100 else 0 }

/-- Banker's floor: `q.num.ediv q.den` is the floor of `q` (den is positive). -/
def qfloor (q : ℚ) : ℤ := q.num.ediv (q.den : ℤ)

/-- Round to the nearest integer, ties to even: the rounding used by
`numpy`/`pandas` `.round` and by Python's fixed-point string formats. -/
def roundHalfEven (q : ℚ) : ℤ :=
  if q - qfloor q < 1/2 then qfloor q
  else if 1/2 < q - qfloor q then qfloor q + 1
  else if qfloor q % 2 = 0 then qfloor q else qfloor q + 1

/-- Model of `.round(2)` on a finite float. -/
def round2 (q : ℚ) : ℚ := (roundHalfEven (q * 100) : ℚ) / 100

/-- One row of the frame returned by `get_area_analysis`. -/
structure AreaRow where
  area : String
  qtd_projetos : ℕ
  custo_previsto_total : ℚ
  conclusao_media : Option ℚ
  custo_real_total : ℚ
  deriving DecidableEq

/-- Embedding of `get_area_analysis` (lines 102-128).  The frame of line
113-117 is rounded at line 117 and again (together with `custo_real`,
assigned at line 122) at line 123, hence the double `round2` on the
aggregates of the deduplicated frame.  `round(2)` on the integer project
count is the identity and is omitted on the `ℕ` field. -/
def get_area_analysis (df : List Row) : List AreaRow :=
  let dedup := drop_duplicates_by_id df
  let areas := (dedup.map (·.area)).dedup
  areas.map (fun a =>
    { area := a,
      qtd_projetos := (dedup.filter (fun r => r.area = a)).length,
      custo_previsto_total :=
        round2 (round2 (((dedup.filter (fun r => r.area = a)).map (·.custo_previsto_clean)).sum)),
      conclusao_media :=
        ((seriesMean ((dedup.filter (fun r => r.area = a)).map (·.conclusao_clean))).map
          round2).map round2,
      custo_real_total :=
        round2 (((df.filter (fun r => r.area = a)).map (·.valor_clean)).sum) })

/-- The fixed status-to-color dict of lines 144-151. -/
def base_status_colors : List (String × String) :=
  [("em dia", "#2E8B57"), ("atrasado", "#FF8C00"), ("critico", "#DC143C"),
   ("pausado", "#708090"), ("concluido", "#4682B4"), ("andamento", "#3CB371")]

/-- Embedding of `get_status_distribution` (lines 131-158): the same
status-count dict as in `calculate_kpis`, paired with the color dict
extended by a gray default for every status outside the fixed set. -/
def get_status_distribution (df : List Row) :
    List (String × ℕ) × List (String × String) :=
  let status_counts := ((df.map (·.status)).dedup).map (fun st =>
    (st, ((df.filter (fun r => r.status = st)).map (·.project_id)).dedup.length))
  let status_colors := base_status_colors ++
    (((df.map (·.status)).dedup).filter (fun st => (base_status_colors.lookup st).isNone)).map
      (fun st => (st, "#A9A9A9"))
  (status_counts, status_colors)

/-- A float that may be one of the IEEE special values produced by a
division by zero: `fin q` a finite value, `inf`/`neginf` the infinities,
`nan` not-a-number. -/
inductive PFloat where
  | fin (q : ℚ)
  | inf
  | neginf
  | nan
  deriving DecidableEq

/-- Float semantics of `((real - prev) / prev * 100).round(2)` as computed
at lines 183-186: dividing a nonzero numerator by zero yields an infinity,
dividing zero by zero yields NaN; multiplying by 100 and `.round(2)`
preserve the special values. -/
def varianceFloat (real prev : ℚ) : PFloat :=
  if prev = 0 then
    if real - prev > 0 then .inf
    else if real - prev < 0 then .neginf
    else .nan
  else .fin (round2 ((real - prev) / prev * 100))

/-- One row of the frame returned by `prepare_cost_comparison_data`. -/
structure CostRow where
  project_id : String
  area : String
  custo_previsto_clean : ℚ
  custo_real_total : ℚ
  variance_percent : PFloat
  deriving DecidableEq

/-- Embedding of `prepare_cost_comparison_data` (lines 161-188).  Every
project of the deduplicated frame occurs in `df`, so the left merge of
line 179 always finds the grouped actual-cost sum and the `fillna(0)` of
line 180 is the identity; the group sum itself is modelled directly. -/
def prepare_cost_comparison_data (df : List Row) : List CostRow :=
  (drop_duplicates_by_id df).map (fun r =>
    let real := ((df.filter (fun x => x.project_id = r.project_id)).map (·.valor_clean)).sum
    { project_id := r.project_id, area := r.area,
      custo_previsto_clean := r.custo_previsto_clean,
      custo_real_total := real,
      variance_percent := varianceFloat real r.custo_previsto_clean })

/-- Decimal digit string of a natural number. -/
def natStr (n : ℕ) : String := ⟨Nat.toDigits 10 n⟩

/-- Insert a comma after every three characters of a reversed digit list. -/
def insertSepRev : List Char → List Char
  | a :: b :: c :: d :: rest => a :: b :: c :: ',' :: insertSepRev (d :: rest)
  | l => l

/-- Digit string of a natural number with thousands separators, as in
Python's `{:,}` format. -/
def natGrouped (n : ℕ) : String :=
  ⟨(insertSepRev (Nat.toDigits 10 n).reverse).reverse⟩

/-- Two-digit decimal string of `k < 100`. -/
def twoDigitStr (k : ℕ) : String :=
  (if k < 10 then "0" else "") ++ natStr k

/-- Model of Python `f"{q:,.2f}"`: round half-to-even at two decimals,
thousands separator `,`, decimal point `.`. -/
def pyFormatComma2 (q : ℚ) : String :=
  (if q < 0 then "-" else "") ++
    natGrouped ((roundHalfEven (q * 100)).natAbs / 100) ++ "." ++
    twoDigitStr ((roundHalfEven (q * 100)).natAbs % 100)

/-- Model of Python `f"{q:.1f}"`: round half-to-even at one decimal. -/
def pyFormatFixed1 (q : ℚ) : String :=
  (if q < 0 then "-" else "") ++
    natStr ((roundHalfEven (q * 10)).natAbs / 10) ++ "." ++
    natStr ((roundHalfEven (q * 10)).natAbs % 10)

/-- Embedding of `format_currency` (lines 191-195): missing or zero maps to
the canonical string, otherwise Python's comma-grouped two-decimal format
with `,`/`.` swapped via the `X` placeholder. -/
def format_currency : Option ℚ → String
  | none => "R$ 0,00"
  | some v =>
    if v = 0 then "R$ 0,00"
    else "R$ " ++ replaceChar (replaceChar (replaceChar (pyFormatComma2 v) ',' 'X') '.' ',') 'X' '.'

/-- Embedding of `format_percentage` (lines 198-202). -/
def format_percentage : Option ℚ → String
  | none => "0,0%"
  | some v => replaceChar (pyFormatFixed1 v ++ "%") '.' ','

/-- State-passing form of `calculate_kpis`: the second component is the
input frame after the call.  The source performs no in-place operation on
`df` (every pandas call it makes returns a fresh object), so the frame is
returned unchanged. -/
def calculate_kpisM (df : List Row) : KPIs × List Row := (calculate_kpis df, df)

/-- State-passing form of `get_area_analysis`: the only assignments in the
source (lines 122, 123, 126) target the derived frame `area_data`, never
`df`. -/
def get_area_analysisM (df : List Row) : List AreaRow × List Row := (get_area_analysis df, df)

/-- State-passing form of `get_status_distribution`: the loop of lines
154-156 mutates only the local `status_colors` dict. -/
def get_status_distributionM (df : List Row) :
    (List (String × ℕ) × List (String × String)) × List Row := (get_status_distribution df, df)

/-- State-passing form of `prepare_cost_comparison_data`: the assignments
of lines 180 and 183 target the merged frame `cost_comparison`, never `df`. -/
def prepare_cost_comparison_dataM (df : List Row) : List CostRow × List Row :=
  (prepare_cost_comparison_data df, df)

/-- Spec-side formulation of the average-completion KPI, following the
spec's words: the arithmetic mean of the cleaned completion values over
exactly the rows whose value is non-missing, and 0.0 when no row
qualifies. -/
def spec_avg_completion (df : List Row) : ℚ :=
  let qualifying := df.filter (fun r => r.conclusao_clean.isSome)
  if qualifying.length = 0 then 0
  else (qualifying.map (fun r => r.conclusao_clean.getD 0)).sum / (qualifying.length : ℚ)

instance {ε α : Type} [DecidableEq ε] [DecidableEq α] : DecidableEq (Except ε α) := fun a b =>
  match a, b with
  | .ok x, .ok y =>
    if h : x = y then .isTrue (by rw [h]) else .isFalse (fun hh => h (Except.ok.inj hh))
  | .error x, .error y =>
    if h : x = y then .isTrue (by rw [h]) else .isFalse (fun hh => h (Except.error.inj hh))
  | .ok _, .error _ => .isFalse (fun hh => Except.noConfusion hh)
  | .error _, .ok _ => .isFalse (fun hh => Except.noConfusion hh)

/-- The three-row table of the end-to-end scenario. -/
def c1_raw : List RawRow :=
  [⟨some "P1", "A", "em dia", .str "50%", .num 400, .num 1000⟩,
   ⟨some "P1", "A", "em dia", .str "50%", .num 200, .num 1000⟩,
   ⟨some "P2", "B", "atrasado", .num (1/5), .num 600, .num 500⟩]

/-- The cleaned form of `c1_raw`. -/
def c1_clean : List Row :=
  [⟨"P1", "A", "em dia", some (1/2), 400, 1000⟩,
   ⟨"P1", "A", "em dia", some (1/2), 200, 1000⟩,
   ⟨"P2", "B", "atrasado", some (1/5), 600, 500⟩]

/-- A raw table whose only completion cell contains a percent sign but does
not parse after normalization. -/
def c2_raw : List RawRow :=
  [⟨some "P1", "A", "em dia", .str "a%", .num 0, .num 0⟩]

/-- A raw table with one project whose planned cost is zero and whose
actual cost is positive. -/
def c4_raw : List RawRow :=
  [⟨some "P1", "A", "em dia", .missing, .num 5, .num 0⟩]

/-- The cleaned form of `c4_raw`. -/
def c4_clean : List Row :=
  [⟨"P1", "A", "em dia", none, 5, 0⟩]

/-- A cleaned table with one project, planned cost 200 and actual cost 100. -/
def c4w_clean : List Row :=
  [⟨"P1", "A", "em dia", none, 100, 200⟩]

/-- The cost-comparison row produced for the single project of `c4w_clean`. -/
def c4w_cr : CostRow := ⟨"P1", "A", 200, 100, .fin (-50)⟩

/-- A raw table with one project whose planned cost is negative. -/
def c5_raw : List RawRow :=
  [⟨some "P1", "A", "em dia", .missing, .num 50, .num (-100)⟩]

/-- The cleaned form of `c5_raw`. -/
def c5_clean : List Row :=
  [⟨"P1", "A", "em dia", none, 50, -100⟩]

/-- A cleaned table with one project and a positive planned cost. -/
def c5w_pos : List Row :=
  [⟨"P1", "A", "em dia", none, 50, 100⟩]

/-- A raw table whose only planned cost has three decimal places. -/
def c6_raw : List RawRow :=
  [⟨some "P1", "A", "em dia", .missing, .num 0, .str "0.001"⟩]

/-- The cleaned form of `c6_raw`. -/
def c6_clean : List Row :=
  [⟨"P1", "A", "em dia", none, 0, 1/1000⟩]

/-- A cleaned table with a repeated project row in two departments and
two-decimal planned costs. -/
def c6w : List Row :=
  [⟨"P1", "A", "em dia", none, 0, 100⟩,
   ⟨"P1", "B", "em dia", none, 0, 100⟩,
   ⟨"P2", "B", "atrasado", none, 0, 50⟩]

/-- A raw table with one good row, one null identifier and one empty
identifier. -/
def c7_raw : List RawRow :=
  [⟨some "P1", "A", "em dia", .num (1/2), .num 10, .num 100⟩,
   ⟨none, "B", "atrasado", .missing, .num 5, .num 50⟩,
   ⟨some "", "C", "critico", .missing, .num 1, .num 2⟩]

/-- The cleaned form of `c7_raw`: only the good row survives. -/
def c7_clean : List Row :=
  [⟨"P1", "A", "em dia", some (1/2), 10, 100⟩]

/-- The non-missing completion values, as a `filterMap`, coincide with the
values of the qualifying rows. -/
theorem filterMap_conclusao (df : List Row) :
    df.filterMap (·.conclusao_clean) =
      (df.filter (fun r => r.conclusao_clean.isSome)).map (fun r => r.conclusao_clean.getD 0) := by
  induction df with
  | nil => rfl
  | cons r t ih =>
    cases h : r.conclusao_clean <;>
      simp [List.filterMap_cons, List.filter_cons, h, ih]

/-- A successful `cleanRow` keeps the (defaulted) raw project identifier. -/
theorem cleanRow_project_id (r : RawRow) (c : Row) (h : cleanRow r = .ok c) :
    c.project_id = r.project_id.getD "" := by
  simp only [cleanRow] at h
  cases hc : cleanConclusao r.conclusao with
  | error e => rw [hc] at h; simp at h
  | ok v =>
    rw [hc] at h
    simp only [] at h
    injection h with h2
    rw [← h2]

/-- A successful `cleanRows` maps the rows one-to-one, keeping identifiers. -/
theorem cleanRows_project_ids :
    ∀ (l : List RawRow) (ct : List Row), cleanRows l = .ok ct →
      ct.map (·.project_id) = l.map (fun r => r.project_id.getD "") := by
  intro l
  induction l with
  | nil =>
    intro ct h
    simp only [cleanRows] at h
    injection h with h2
    rw [← h2]
    rfl
  | cons r rs ih =>
    intro ct h
    simp only [cleanRows] at h
    cases hr : cleanRow r with
    | error e => rw [hr] at h; simp at h
    | ok c =>
      rw [hr] at h
      cases hrs : cleanRows rs with
      | error e => rw [hrs] at h; simp at h
      | ok cs =>
        rw [hrs] at h
        simp only [] at h
        injection h with h2
        rw [← h2]
        simp [cleanRow_project_id r c hr, ih cs hrs]

/-- Splitting a mapped sum along a boolean predicate. -/
theorem sum_filter_add_sum_filter_not {α : Type} (val : α → ℚ) (p : α → Bool) (l : List α) :
    ((l.filter p).map val).sum + ((l.filter (fun x => !(p x))).map val).sum
      = (l.map val).sum := by
  induction l with
  | nil => simp
  | cons x xs ih =>
    cases hx : p x <;> simp [List.filter_cons, hx] <;> rw [← ih] <;> ring

/-- Summing the per-fiber sums over a duplicate-free list of keys covering
the list reproduces the total sum. -/
theorem sum_fiberwise {α : Type} (val : α → ℚ) (key : α → String) :
    ∀ (keys : List String), keys.Nodup → ∀ (l : List α), (∀ x ∈ l, key x ∈ keys) →
      ((keys.map (fun a => ((l.filter (fun x => key x = a)).map val).sum)).sum
        = (l.map val).sum) := by
  intro keys
  induction keys with
  | nil =>
    intro _ l hl
    have hemp : l = [] := by
      cases l with
      | nil => rfl
      | cons x xs => exact absurd (hl x (List.mem_cons_self x xs)) (List.not_mem_nil _)
    rw [hemp]
    rfl
  | cons a ks ih =>
    intro hnd l hl
    obtain ⟨hna, hndks⟩ := List.nodup_cons.mp hnd
    have hfib : ∀ a' ∈ ks, (l.filter (fun x => key x = a'))
        = ((l.filter (fun x => !(decide (key x = a)))).filter (fun x => key x = a')) := by
      intro a' ha'
      rw [List.filter_filter]
      refine List.filter_congr ?_
      intro x _
      by_cases hx : key x = a'
      · have haa : ¬ a' = a := fun hh => hna (hh ▸ ha')
        simp [hx, haa]
      · simp [hx]
    have hcov : ∀ x ∈ l.filter (fun x => !(decide (key x = a))), key x ∈ ks := by
      intro x hx
      obtain ⟨hxl, hxp⟩ := List.mem_filter.mp hx
      rcases List.mem_cons.mp (hl x hxl) with hh | hh
      · exfalso; revert hxp; simp [hh]
      · exact hh
    have hmapcong :
        (ks.map (fun a' => ((l.filter (fun x => key x = a')).map val).sum))
          = (ks.map (fun a' => (((l.filter (fun x => !(decide (key x = a)))).filter
              (fun x => key x = a')).map val).sum)) :=
      List.map_congr_left (fun a' ha' => by rw [hfib a' ha'])
    simp only [List.map_cons, List.sum_cons]
    rw [hmapcong, ih hndks _ hcov]
    exact sum_filter_add_sum_filter_not val (fun x => decide (key x = a)) l

/-- `drop_duplicates` only ever keeps rows of the original table. -/
theorem dropDupAux_subset :
    ∀ (l : List Row) (seen : List String), ∀ r ∈ dropDupAux l seen, r ∈ l := by
  intro l
  induction l with
  | nil => intro seen r hr; simp [dropDupAux] at hr
  | cons x xs ih =>
    intro seen r hr
    simp only [dropDupAux] at hr
    by_cases h : x.project_id ∈ seen
    · rw [if_pos h] at hr
      exact List.mem_cons_of_mem _ (ih _ r hr)
    · rw [if_neg h] at hr
      rcases List.mem_cons.mp hr with hh | hh
      · exact hh ▸ List.mem_cons_self _ _
      · exact List.mem_cons_of_mem _ (ih _ r hh)

/-- A sum of exact two-decimal values is an exact two-decimal value. -/
theorem twoDec_sum :
    ∀ (l : List ℚ), (∀ q ∈ l, ∃ n : ℤ, q = (n : ℚ) / 100) →
      ∃ n : ℤ, l.sum = (n : ℚ) / 100 := by
  intro l
  induction l with
  | nil => intro _; exact ⟨0, by simp⟩
  | cons q t ih =>
    intro h
    obtain ⟨n, hn⟩ := h q (List.mem_cons_self q t)
    obtain ⟨m, hm⟩ := ih (fun x hx => h x (List.mem_cons_of_mem _ hx))
    refine ⟨n + m, ?_⟩
    rw [List.sum_cons, hn, hm]
    push_cast
    ring

/-- Half-even rounding fixes the integers. -/
theorem roundHalfEven_intCast (n : ℤ) : roundHalfEven (n : ℚ) = n := by
  have hf : qfloor (n : ℚ) = n := by
    simp only [qfloor, Rat.num_intCast, Rat.den_intCast, Nat.cast_one]
    exact Int.ediv_one n
  simp [roundHalfEven, hf]

/-- `.round(2)` fixes exact two-decimal values. -/
theorem round2_twoDec (n : ℤ) : round2 ((n : ℚ) / 100) = (n : ℚ) / 100 := by
  have h : ((n : ℚ) / 100) * 100 = (n : ℚ) := div_mul_cancel₀ _ (by norm_num)
  rw [round2, h, roundHalfEven_intCast]

/-- Claim C1 (counterexample): on the three-row scenario table the pipeline
computes `avg_completion = 0.4` (the per-row mean of 0.5, 0.5 and 0.2),
not the claimed 0.35: line 85 averages `conclusao_clean` over all rows,
without deduplicating projects. -/
theorem c1_counterexample :
    load_and_clean_data c1_raw = .ok c1_clean ∧
    (calculate_kpis c1_clean).avg_completion = 2/5 ∧
    ((2 : ℚ)/5 ≠ 35/100) := by decide

/-- Claim C1 (amended): for the three-row input table, running the cleaner
and then `calculate_kpis` yields `total_projects = 2`, status counts
`em dia ↦ 1` and `atrasado ↦ 1`, `avg_completion = 0.4` (the mean is taken
over all rows, so the duplicated P1 row counts twice), `planned_costs =
1500`, `actual_costs = 1200` and `cost_variance = -20.0`. -/
theorem c1_amended :
    load_and_clean_data c1_raw = .ok c1_clean ∧
    (calculate_kpis c1_clean).total_projects = 2 ∧
    (calculate_kpis c1_clean).status_counts.lookup "em dia" = some 1 ∧
    (calculate_kpis c1_clean).status_counts.lookup "atrasado" = some 1 ∧
    (calculate_kpis c1_clean).avg_completion = 2/5 ∧
    (calculate_kpis c1_clean).planned_costs = 1500 ∧
    (calculate_kpis c1_clean).actual_costs = 1200 ∧
    (calculate_kpis c1_clean).cost_variance = -20 := by decide

/-- Claim C2 (counterexample): the completion cell `"a%"` does not clean to
missing; the percent branch's `astype(float)` raises, so the whole load
fails with an error. -/
theorem c2_counterexample :
    cleanConclusao (RawVal.str "a%") ≠ .ok none ∧
    load_and_clean_data c2_raw = .error "could not convert string to float: a%" := by decide

/-- Claim C2 (amended): a percent-sign string cleans by stripping the
percent sign, replacing commas with periods, parsing as float and dividing
by 100 when that parse succeeds, and aborts the whole load with an error
when it fails; any other value goes through a coercing float parse whose
failure yields missing (not zero); in particular "0,7%" cleans to 0.007,
"70%" to 0.70 and "0.55" to 0.55. -/
theorem c2_amended :
    cleanConclusao (RawVal.str "0,7%") = .ok (some (7/1000)) ∧
    cleanConclusao (RawVal.str "70%") = .ok (some (7/10)) ∧
    cleanConclusao (RawVal.str "0.55") = .ok (some (11/20)) ∧
    (∀ s : String, s.data.contains '%' = true →
      (∀ q : ℚ, pyParseFloat (replaceChar (removeChar s '%') ',' '.') = some q →
        cleanConclusao (RawVal.str s) = .ok (some (q / 100))) ∧
      (pyParseFloat (replaceChar (removeChar s '%') ',' '.') = none →
        cleanConclusao (RawVal.str s)
          = .error ("could not convert string to float: " ++ s))) ∧
    (∀ s : String, s.data.contains '%' = false →
      cleanConclusao (RawVal.str s) = .ok (pyParseFloat s)) ∧
    (∀ q : ℚ, cleanConclusao (RawVal.num q) = .ok (some q)) ∧
    cleanConclusao RawVal.missing = .ok none := by
  refine ⟨by decide, by decide, by decide, ?_, ?_, fun q => rfl, rfl⟩
  · intro s hs
    have hs2 : '%' ∈ s.data := by simpa using hs
    constructor
    · intro q hq
      simp [cleanConclusao, hs2, hq]
    · intro hq
      simp [cleanConclusao, hs2, hq]
  · intro s hs
    have hs2 : '%' ∉ s.data := by simpa using hs
    simp [cleanConclusao, hs2]

/-- Claim C2 (witness): the amended laws applied at the percent string
"8%" and at the non-percent unparsable string "abc". -/
theorem c2_witness :
    cleanConclusao (RawVal.str "8%") = .ok (some (2/25)) ∧
    cleanConclusao (RawVal.str "abc") = .ok none := by
  constructor
  · exact ((c2_amended.2.2.2.1 "8%" (by decide)).1 8 (by decide)).trans (by decide)
  · exact (c2_amended.2.2.2.2.1 "abc" (by decide)).trans (by decide)

/-- Claim C8 (confirmed): the formatter examples — zero and missing render
as "R$ 0,00", 1234.5 renders as "R$ 1.234,50", a missing percentage
renders as "0,0%", and 12.34 renders as "12,3%". -/
theorem c8_confirmed :
    format_currency (some 0) = "R$ 0,00" ∧
    format_currency none = "R$ 0,00" ∧
    format_currency (some (12345/10)) = "R$ 1.234,50" ∧
    format_percentage none = "0,0%" ∧
    format_percentage (some (1234/100)) = "12,3%" := by decide

/-- Claim C9 (confirmed): each of the four aggregation queries leaves its
input frame unchanged (none of them performs an in-place operation on
`df`), so running one after another yields the same results as running it
alone. -/
theorem c9_confirmed (df : List Row) :
    (calculate_kpisM df).2 = df ∧ (get_area_analysisM df).2 = df ∧
    (get_status_distributionM df).2 = df ∧ (prepare_cost_comparison_dataM df).2 = df ∧
    (calculate_kpisM ((get_area_analysisM df).2)).1 = (calculate_kpisM df).1 ∧
    (get_area_analysisM ((calculate_kpisM df).2)).1 = (get_area_analysisM df).1 ∧
    (get_status_distributionM ((prepare_cost_comparison_dataM df).2)).1
      = (get_status_distributionM df).1 ∧
    (prepare_cost_comparison_dataM ((get_status_distributionM df).2)).1
      = (prepare_cost_comparison_dataM df).1 :=
  ⟨rfl, rfl, rfl, rfl, rfl, rfl, rfl, rfl⟩

/-- Claim C10 (confirmed): `calculate_kpis` and `get_status_distribution`
compute the same status-count mapping, and each entry counts the distinct
project identifiers carrying that status. -/
theorem c10_confirmed (df : List Row) :
    (calculate_kpis df).status_counts = (get_status_distribution df).1 ∧
    ∀ p ∈ (calculate_kpis df).status_counts,
      p.2 = ((df.filter (fun r => r.status = p.1)).map (·.project_id)).toFinset.card := by
  constructor
  · rfl
  · intro p hp
    simp only [calculate_kpis, List.mem_map] at hp
    obtain ⟨st, hst, rfl⟩ := hp
    simp [List.card_toFinset]

/-- Claim C10 (witness): the shared mapping applied on the scenario table
at the status "em dia". -/
theorem c10_witness :
    (("em dia", 1) : String × ℕ).2 =
      ((c1_clean.filter (fun r => r.status = (("em dia", 1) : String × ℕ).1)).map
        (·.project_id)).toFinset.card :=
  (c10_confirmed c1_clean).2 ("em dia", 1) (by decide)

/-- Claim C3 (confirmed): the `avg_completion` KPI equals the arithmetic
mean of the cleaned completion values over exactly the rows with a
non-missing value, and equals 0.0 when no row qualifies. -/
theorem c3_confirmed (df : List Row) :
    (calculate_kpis df).avg_completion = spec_avg_completion df := by
  have h := filterMap_conclusao df
  simp only [calculate_kpis, seriesMean, spec_avg_completion, List.filterMap_map,
    Function.id_comp] at *
  rw [h]
  cases hl : df.filter (fun r => r.conclusao_clean.isSome) with
  | nil => rfl
  | cons x xs => simp

/-- Claim C4 (counterexample): for a project with planned cost 0 and
positive actual cost, the per-project variance of
`prepare_cost_comparison_data` is positive infinity, not the claimed
0.0-by-policy (lines 183-186 divide without a zero guard). -/
theorem c4_counterexample :
    load_and_clean_data c4_raw = .ok c4_clean ∧
    prepare_cost_comparison_data c4_clean = [⟨"P1", "A", 0, 5, PFloat.inf⟩] ∧
    PFloat.inf ≠ PFloat.fin 0 := by decide

/-- Claim C4 (amended): for every project row of the cost-comparison
output, a zero planned cost yields an infinity (or NaN when the actual sum
is also zero) rather than a raised error or 0.0; a nonzero planned cost
yields the variance formula rounded to 2 decimals; and the actual-cost
column is always the (possibly empty, hence 0) sum of the project's
`valor` values. -/
theorem c4_amended (df : List Row) (cr : CostRow)
    (h : cr ∈ prepare_cost_comparison_data df) :
    (cr.custo_previsto_clean = 0 →
      cr.variance_percent =
        if cr.custo_real_total > 0 then PFloat.inf
        else if cr.custo_real_total < 0 then PFloat.neginf
        else PFloat.nan) ∧
    (cr.custo_previsto_clean ≠ 0 →
      cr.variance_percent =
        PFloat.fin (round2 ((cr.custo_real_total - cr.custo_previsto_clean) /
          cr.custo_previsto_clean * 100))) ∧
    cr.custo_real_total =
      ((df.filter (fun x => x.project_id = cr.project_id)).map (·.valor_clean)).sum := by
  simp only [prepare_cost_comparison_data, List.mem_map] at h
  obtain ⟨r, hr, rfl⟩ := h
  refine ⟨?_, ?_, rfl⟩
  · intro h0
    simp only at h0
    simp [varianceFloat, h0, sub_zero]
  · intro h0
    simp only at h0
    simp [varianceFloat, h0]

/-- Claim C4 (witness): the amended per-project variance rule applied on a
table with planned cost 200 and actual cost 100. -/
theorem c4_witness : c4w_cr.variance_percent = PFloat.fin (-50) := by
  have h := (c4_amended c4w_clean c4w_cr (by decide)).2.1 (by decide)
  exact h.trans (by decide)

/-- Claim C5 (counterexample): with a negative deduplicated planned-cost
sum (-100) and actual costs 50, `calculate_kpis` returns `cost_variance =
0.0` although the claimed formula gives -150: the source guards with
`planned_costs > 0`, not `≠ 0`. -/
theorem c5_counterexample :
    load_and_clean_data c5_raw = .ok c5_clean ∧
    (calculate_kpis c5_clean).planned_costs = -100 ∧
    (calculate_kpis c5_clean).cost_variance = 0 ∧
    ((calculate_kpis c5_clean).actual_costs - (calculate_kpis c5_clean).planned_costs) /
        (calculate_kpis c5_clean).planned_costs * 100 = -150 ∧
    ((0 : ℚ) ≠ -150) := by decide

/-- Claim C5 (amended): the `cost_variance` KPI equals
`(actual - planned) / planned * 100` when the deduplicated planned-cost
sum is positive, and is exactly 0.0 whenever that sum is zero or negative
(in particular when it is 0, for any actual cost). -/
theorem c5_amended (df : List Row) :
    (0 < (calculate_kpis df).planned_costs →
      (calculate_kpis df).cost_variance =
        ((calculate_kpis df).actual_costs - (calculate_kpis df).planned_costs) /
          (calculate_kpis df).planned_costs * 100) ∧
    ((calculate_kpis df).planned_costs ≤ 0 → (calculate_kpis df).cost_variance = 0) := by
  simp only [calculate_kpis]
  constructor
  · intro h
    rw [if_pos h]
  · intro h
    rw [if_neg (not_lt.mpr h)]

/-- Claim C5 (witness): the amended variance rule applied on a table with
positive planned costs and on one with negative planned costs. -/
theorem c5_witness :
    (calculate_kpis c5w_pos).cost_variance = -50 ∧
    (calculate_kpis c5_clean).cost_variance = 0 := by
  constructor
  · exact ((c5_amended c5w_pos).1 (by decide)).trans (by decide)
  · exact (c5_amended c5_clean).2 (by decide)

/-- Claim C6 (counterexample): with a single project of planned cost 0.001,
the per-department aggregate is rounded (internally, at lines 117 and 123)
to 0.00, so the sum of per-department planned aggregates (0) differs from
the global deduplicated planned sum (0.001) of `calculate_kpis`. -/
theorem c6_counterexample :
    load_and_clean_data c6_raw = .ok c6_clean ∧
    ((get_area_analysis c6_clean).map (·.custo_previsto_total)).sum = 0 ∧
    (calculate_kpis c6_clean).planned_costs = 1/1000 ∧
    ((0 : ℚ) ≠ 1/1000) := by decide

/-- Claim C6 (amended): whenever every cleaned planned cost is an exact
two-decimal value, the sum over all departments of the per-department
planned-cost aggregate of `get_area_analysis` equals the global
deduplicated planned-cost sum of `calculate_kpis` — projects repeated
across departments are never double counted; without the two-decimal
condition the internal `.round(2)` of the per-department aggregates can
break the equality. -/
theorem c6_amended (df : List Row)
    (h : ∀ r ∈ df, ∃ n : ℤ, r.custo_previsto_clean = (n : ℚ) / 100) :
    ((get_area_analysis df).map (·.custo_previsto_total)).sum
      = (calculate_kpis df).planned_costs := by
  have hput : ∀ a : String,
      round2 (round2 ((((drop_duplicates_by_id df).filter (fun r => r.area = a)).map
          (·.custo_previsto_clean)).sum))
        = (((drop_duplicates_by_id df).filter (fun r => r.area = a)).map
          (·.custo_previsto_clean)).sum := by
    intro a
    have hall : ∀ q ∈ (((drop_duplicates_by_id df).filter (fun r => r.area = a)).map
        (fun r => r.custo_previsto_clean)), ∃ n : ℤ, q = (n : ℚ) / 100 := by
      intro q hq
      obtain ⟨r, hr, rfl⟩ := List.mem_map.mp hq
      exact h r (dropDupAux_subset _ _ r (List.mem_filter.mp hr).1)
    obtain ⟨n, hn⟩ := twoDec_sum _ hall
    rw [hn, round2_twoDec, round2_twoDec]
  simp only [calculate_kpis, get_area_analysis, List.map_map, Function.comp]
  simp only [hput]
  exact @sum_fiberwise Row (fun r => r.custo_previsto_clean) (fun r => r.area)
    (((drop_duplicates_by_id df).map (fun r => r.area)).dedup)
    (List.nodup_dedup _) (drop_duplicates_by_id df)
    (fun x hx => List.mem_dedup.mpr (List.mem_map_of_mem _ hx))

/-- Claim C6 (witness): the amended cross-check applied to a table that
repeats project P1 in two departments with two-decimal planned costs. -/
theorem c6_witness :
    ((get_area_analysis c6w).map (·.custo_previsto_total)).sum
      = (calculate_kpis c6w).planned_costs := by
  apply c6_amended
  intro r hr
  simp only [c6w, List.mem_cons, List.not_mem_nil, or_false] at hr
  rcases hr with rfl | rfl | rfl
  · exact ⟨10000, by norm_num⟩
  · exact ⟨10000, by norm_num⟩
  · exact ⟨5000, by norm_num⟩

/-- Claim C7 (confirmed): cleaning drops exactly the rows whose project
identifier is null or the empty string, and every surviving row carries a
non-empty identifier. -/
theorem c7_confirmed (rows : List RawRow) (ct : List Row)
    (h : load_and_clean_data rows = .ok ct) :
    (∀ r ∈ ct, r.project_id ≠ "") ∧
    ct.map (·.project_id) = (rows.filter keepRow).map (fun r => r.project_id.getD "") := by
  have hmap := cleanRows_project_ids _ _ h
  refine ⟨?_, hmap⟩
  intro r hr
  have hmem : r.project_id ∈ ct.map (·.project_id) := List.mem_map_of_mem _ hr
  rw [hmap] at hmem
  obtain ⟨x, hx, hpx⟩ := List.mem_map.mp hmem
  have hk := (List.mem_filter.mp hx).2
  simp only [keepRow, decide_eq_true_eq] at hk
  cases hxp : x.project_id with
  | none => exact absurd hxp hk.1
  | some s =>
    rw [hxp] at hpx
    intro hre
    apply hk.2
    rw [hxp, show s = "" from by rw [← hre, ← hpx]; rfl]

/-- Claim C7 (witness): the dropping rule applied on a table with one good
row, one null identifier and one empty identifier. -/
theorem c7_witness :
    c7_clean.map (·.project_id)
      = (c7_raw.filter keepRow).map (fun r => r.project_id.getD "") :=
  (c7_confirmed c7_raw c7_clean (by decide)).2
